import Mathlib

/-!
Shallow embedding of the Sentry rules engine:
  src/sentry/rules.py (node types, conditions, actions) and
  src/sentry/web/frontend/projects/rules.py (RuleFormValidator).

Python dicts are embedded as association lists with dict-update semantics
(unique keys preserved by the update function); Python functions that can
raise are embedded as Except String, the error string naming the Python
exception class.  Machine-level details (interning, unicode normalisation)
do not occur in the modelled code paths.
-/

namespace Sentry

/-- Prefix test on character lists (used to model Python string matching). -/
def listStartsWith : List Char → List Char → Bool
  | [], _ => true
  | _ :: _, [] => false
  | a :: as, b :: bs => a == b && listStartsWith as bs

/-- Substring containment on character lists: models the Python expression
`needle in hay` for byte strings. -/
def listContainsSub (needle : List Char) : List Char → Bool
  | [] => needle.isEmpty
  | b :: bs => listStartsWith needle (b :: bs) || listContainsSub needle bs

/-- Models Python `needle in hay` on strings. -/
def strContains (hay needle : String) : Bool :=
  listContainsSub needle.data hay.data

/-- The whitespace characters stripped by Python 2 `str.strip()`:
space, tab, newline, carriage return, vertical tab, form feed. -/
def pyWhitespace (c : Char) : Bool :=
  c == ' ' || c == '\t' || c == '\n' || c == '\r' ||
  c == Char.ofNat 11 || c == Char.ofNat 12

/-- Models Python `s.strip()`: removes leading and trailing whitespace. -/
def pyStrip (s : String) : String :=
  ((s.data.dropWhile pyWhitespace).reverse.dropWhile pyWhitespace).reverse.asString

/-- Dict assignment `m[k] = v` on an association list: overwrites an existing
binding in place, otherwise appends. -/
def setAssoc (m : List (String × String)) (k v : String) : List (String × String) :=
  match m with
  | [] => [(k, v)]
  | (k2, v2) :: t => if k2 == k then (k, v) :: t else (k2, v2) :: setAssoc t k v

/-- Nested dict assignment `m[num][field] = v` for the `raw_data` structure of
RuleFormValidator.cleaned_data. -/
def setAssoc2 (m : List (String × List (String × String))) (num field v : String) :
    List (String × List (String × String)) :=
  match m with
  | [] => [(num, [(field, v)])]
  | (n2, fs) :: t =>
    if n2 == num then (num, setAssoc fs field v) :: t else (n2, fs) :: setAssoc2 t num field v

/-- String order used by Python `sorted` on the digit-string keys of raw_data. -/
def strLe (a b : String) : Bool := !(compare a b == Ordering.gt)

/-- Insertion step of the sort used to model `sorted(raw_data[...].iteritems())`. -/
def insertSorted (x : String × List (String × String)) :
    List (String × List (String × String)) → List (String × List (String × String))
  | [] => [x]
  | y :: t => if strLe x.1 y.1 then x :: y :: t else y :: insertSorted x t

/-- Models `sorted(d.iteritems())` on the raw_data buckets (keys are unique, so
any sort by key agrees with Python). -/
def sortByNum (l : List (String × List (String × String))) :
    List (String × List (String × String)) :=
  l.foldr insertSorted []

/-- MatchType.EQUAL from src/sentry/rules.py. -/
def MatchType.EQUAL : String := "eq"

/-- MatchType.NOT_EQUAL from src/sentry/rules.py. -/
def MatchType.NOT_EQUAL : String := "ne"

/-- MatchType.STARTS_WITH from src/sentry/rules.py. -/
def MatchType.STARTS_WITH : String := "sw"

/-- MatchType.ENDS_WITH from src/sentry/rules.py. -/
def MatchType.ENDS_WITH : String := "ew"

/-- MatchType.CONTAINS from src/sentry/rules.py. -/
def MatchType.CONTAINS : String := "co"

/-- MatchType.NOT_CONTAINS from src/sentry/rules.py. -/
def MatchType.NOT_CONTAINS : String := "nc"

/-- An event as seen by the rules engine: `event.get_tags()` yields a list of
key/value pairs (a multi-map; duplicate keys allowed). -/
structure Event where
  tags : List (String × String)
deriving DecidableEq

/-- Models `event.get_tags()`. -/
def Event.get_tags (e : Event) : List (String × String) := e.tags

/-- Models `RuleBase.get_option`: `self.data.get(key)`, i.e. None when absent. -/
def get_option (data : List (String × String)) (k : String) : Option String :=
  List.lookup k data

/-- A node class as produced by the RuleDescriptor metaclass: its defining
module, its class name, its label template and its optional form class.  The
form class is embedded as the boolean validation function `is_valid` runs. -/
structure NodeType where
  module : String
  name : String
  label : String
  form_cls : Option (List (String × String) → Bool)

/-- Models RuleDescriptor.__new__: `new_cls.id = '%s.%s' % (module, name)`. -/
def NodeType.id (n : NodeType) : String := n.module ++ "." ++ n.name

/-- Models `RuleBase.validate_form`: True when form_cls is unset, otherwise the
result of `form_cls(self.data).is_valid()`. -/
def RuleBase.validate_form (n : NodeType) (data : List (String × String)) : Bool :=
  match n.form_cls with
  | none => true
  | some f => f data

mutual

/-- Body of the embedding of Python `template.format(**data)` for the templates
appearing in this module: plain characters are copied; a brace opens a named
placeholder. Lone unterminated braces raise ValueError, a placeholder name that
is not a key of `data` raises KeyError, exactly as `str.format` does. -/
def fmtGo (data : List (String × String)) : List Char → Except String (List Char)
  | [] => Except.ok []
  | c :: rest =>
    if c = Char.ofNat 123 then fmtName data [] rest
    else (fmtGo data rest).map (fun t => c :: t)

/-- Placeholder-reading state of `fmtGo`: accumulates the placeholder name up
to the closing brace, then substitutes its value from `data`. -/
def fmtName (data : List (String × String)) (acc : List Char) :
    List Char → Except String (List Char)
  | [] => Except.error "ValueError"
  | c :: rest =>
    if c = Char.ofNat 125 then
      match List.lookup acc.asString data with
      | none => Except.error "KeyError"
      | some v => (fmtGo data rest).map (fun t => v.data ++ t)
    else fmtName data (acc ++ [c]) rest

end

mutual

/-- The list of placeholder names occurring (with a closing brace) in a label
template, in order of appearance. -/
def phGo : List Char → List String
  | [] => []
  | c :: rest => if c = Char.ofNat 123 then phName [] rest else phGo rest

/-- Placeholder-reading state of `phGo`. -/
def phName (acc : List Char) : List Char → List String
  | [] => []
  | c :: rest =>
    if c = Char.ofNat 125 then acc.asString :: phGo rest else phName (acc ++ [c]) rest

end

/-- Models `RuleBase.render_label`: `self.label.format(**self.data)`. -/
def RuleBase.render_label (n : NodeType) (data : List (String × String)) :
    Except String String :=
  (fmtGo data n.label.data).map List.asString

/-- Modelled from the spec: the Django form machinery behind
`TaggedEventForm.is_valid()` is an external library not present in src/.  Per
the spec, validation "checks each declared parameter against its schema
(required, type-coercible, within allowed choices)": `key` and `value` are
required non-empty CharFields and `match` is a ChoiceField over the six
MatchType codes. -/
def TaggedEventForm.is_valid (data : List (String × String)) : Bool :=
  (match List.lookup "key" data with
   | some s => !(s == "")
   | none => false) &&
  (match List.lookup "match" data with
   | some s => [MatchType.EQUAL, MatchType.NOT_EQUAL, MatchType.STARTS_WITH,
                MatchType.ENDS_WITH, MatchType.CONTAINS, MatchType.NOT_CONTAINS].contains s
   | none => false) &&
  (match List.lookup "value" data with
   | some s => !(s == "")
   | none => false)

/-- The NotifyEventAction node class from src/sentry/rules.py. -/
def NotifyEventAction : NodeType :=
  ⟨"sentry.rules", "NotifyEventAction", "Send a notification", none⟩

/-- The FirstSeenEventCondition node class from src/sentry/rules.py. -/
def FirstSeenEventCondition : NodeType :=
  ⟨"sentry.rules", "FirstSeenEventCondition", "An event is first seen", none⟩

/-- The RegressionEventCondition node class from src/sentry/rules.py. -/
def RegressionEventCondition : NodeType :=
  ⟨"sentry.rules", "RegressionEventCondition",
    "An event changes state from resolved to unresolved", none⟩

/-- The TaggedEventCondition node class from src/sentry/rules.py.  Its label
template contains the three placeholders key, match and value. -/
def TaggedEventCondition : NodeType :=
  ⟨"sentry.rules", "TaggedEventCondition",
    "An events tags match \x7bkey\x7d \x7bmatch\x7d \x7bvalue\x7d",
    some TaggedEventForm.is_valid⟩

/-- The RULES registry from src/sentry/rules.py, bucket 'events'. -/
structure RulesCatalog where
  actions : List NodeType
  conditions : List NodeType

/-- `RULES['events']`: one action, three conditions, in source order. -/
def RULES_events : RulesCatalog :=
  ⟨[NotifyEventAction],
   [FirstSeenEventCondition, RegressionEventCondition, TaggedEventCondition]⟩

/-- Models `FirstSeenEventCondition.passes(self, event, is_new, **kwargs)`:
the body is `return is_new`. -/
def FirstSeenEventCondition.passes (data : List (String × String)) (event : Event)
    (is_new : Bool) (is_regression : Bool) : Bool :=
  is_new

/-- Models `RegressionEventCondition.passes(self, event, is_regression, **kwargs)`:
the body is `return is_regression`. -/
def RegressionEventCondition.passes (data : List (String × String)) (event : Event)
    (is_new : Bool) (is_regression : Bool) : Bool :=
  is_regression

/-- Models `TaggedEventCondition.passes`.  The three options come from
`self.data` via `get_option` (None when absent); the generator filters the
event tags to those whose key equals the configured key.  The six match codes
each drive a short-circuiting scan; a missing value makes the scan body raise
TypeError on sw/ew/co/nc as soon as one tag is examined (Python
`t.startswith(None)` / `None in t`); when no branch matches, Python falls off
the end and returns None. -/
def TaggedEventCondition.passes (data : List (String × String)) (event : Event)
    (is_regression : Bool) : Except String (Option Bool) :=
  let key := get_option data "key"
  let mtch := get_option data "match"
  let value := get_option data "value"
  let tags := ((Event.get_tags event).filter (fun kv => some kv.1 == key)).map Prod.snd
  if mtch = some MatchType.EQUAL then
    Except.ok (some (tags.any (fun t => some t == value)))
  else if mtch = some MatchType.NOT_EQUAL then
    Except.ok (some (!tags.any (fun t => some t == value)))
  else if mtch = some MatchType.STARTS_WITH then
    match value with
    | none => if tags.isEmpty then Except.ok (some false) else Except.error "TypeError"
    | some v => Except.ok (some (tags.any (fun t => t.startsWith v)))
  else if mtch = some MatchType.ENDS_WITH then
    match value with
    | none => if tags.isEmpty then Except.ok (some false) else Except.error "TypeError"
    | some v => Except.ok (some (tags.any (fun t => t.endsWith v)))
  else if mtch = some MatchType.CONTAINS then
    match value with
    | none => if tags.isEmpty then Except.ok (some false) else Except.error "TypeError"
    | some v => Except.ok (some (tags.any (fun t => strContains t v)))
  else if mtch = some MatchType.NOT_CONTAINS then
    match value with
    | none => if tags.isEmpty then Except.ok (some true) else Except.error "TypeError"
    | some v => Except.ok (some (!tags.any (fun t => strContains t v)))
  else
    Except.ok none

/-- A bound data map `{'key': k, 'match': m, 'value': v}` for
TaggedEventCondition, as the web layer produces it. -/
def mkData (k m v : String) : List (String × String) :=
  [("key", k), ("match", m), ("value", v)]

/-- Observable effects of an action: `notify(event)` was invoked. -/
inductive NotifyEffect where
  | notified (e : Event)
deriving DecidableEq

/-- Models `NotifyEventAction.notify(self, event)`: the dispatch to the plugin
system (a TODO stub in the source) is recorded as a trace effect. -/
def NotifyEventAction.notify (e : Event) : List NotifyEffect :=
  [NotifyEffect.notified e]

/-- Models `NotifyEventAction.after(self, event, **kwargs)`:
`if self.should_notify(event): self.notify(event)`.  `should_notify` is not
defined by the class (it is abstract, supplied by a concrete subclass), so it
is passed as a parameter. -/
def NotifyEventAction.after (should_notify : Event → Bool) (e : Event) :
    List NotifyEffect :=
  if should_notify e then NotifyEventAction.notify e else []

/-- Tail of the key regexp `^(condition|action)\[(\d+)\]\[(.+)\]$` after the
kind and its opening bracket have been consumed: a non-empty digit group, the
bracket pair, and a greedy non-empty group running to a final bracket that ends
the key (`.` does not match a newline, so keys with embedded newlines in the
final group never match). -/
def parseAfterKind (kind : String) (rest : List Char) : Option (String × String × String) :=
  let digits := rest.takeWhile Char.isDigit
  let rest2 := rest.dropWhile Char.isDigit
  match digits, rest2 with
  | [], _ => none
  | _ :: _, ']' :: '[' :: rest3 =>
    match rest3.reverse with
    | ']' :: revg =>
      let g3 := revg.reverse
      if g3.isEmpty || g3.contains '\n' then none
      else some (kind, digits.asString, g3.asString)
    | _ => none
  | _ :: _, _ => none

/-- Models `re.match(r'^(condition|action)\[(\d+)\]\[(.+)\]$', key)`, returning
the three groups on success. -/
def parseRuleKey (s : String) : Option (String × String × String) :=
  if listStartsWith "condition[".data s.data then
    parseAfterKind "condition" (s.data.drop 10)
  else if listStartsWith "action[".data s.data then
    parseAfterKind "action" (s.data.drop 7)
  else none

/-- The `raw_data` nested dict of RuleFormValidator.cleaned_data: for each of
the two kinds, a map from the digit-string index to the field map of that
instance. -/
structure RawData where
  condition : List (String × List (String × String))
  action : List (String × List (String × String))

/-- Builds `raw_data` by folding the submitted items through the key regexp
(items whose key does not match are skipped).  The iteration order of the
Python dict only matters when two keys write the same slot, which cannot
happen: the key string determines kind, index and field uniquely. -/
def buildRawData (formData : List (String × String)) : RawData :=
  formData.foldl
    (fun rd kv =>
      match parseRuleKey kv.1 with
      | none => rd
      | some (kind, num, field) =>
        if kind == "condition" then
          { rd with condition := setAssoc2 rd.condition num field kv.2 }
        else
          { rd with action := setAssoc2 rd.action num field kv.2 })
    ⟨[], []⟩

/-- One loop of RuleFormValidator.cleaned_data over the sorted instances of a
kind: each node dict is appended to the output list, then
`rules_by_id[kind][node['id']]` is looked up — a plain dict subscript, so a
missing 'id' field or an id absent from the registry raises KeyError — and a
failed `validate_form` records an error under `kind[num]`. -/
def processNodes (reg : List NodeType) (kl : String) :
    List (String × List (String × String)) →
    Except String (List (List (String × String)) × List (String × String))
  | [] => Except.ok ([], [])
  | (num, node) :: rest =>
    match List.lookup "id" node with
    | none => Except.error "KeyError"
    | some i =>
      match List.find? (fun n => NodeType.id n == i) reg with
      | none => Except.error "KeyError"
      | some cls =>
        match processNodes reg kl rest with
        | Except.error e => Except.error e
        | Except.ok (ns, es) =>
          Except.ok (node :: ns,
            (if !(RuleBase.validate_form cls node) then
              [(kl ++ "[" ++ num ++ "]", "Ensure all fields are filled out correctly.")]
             else []) ++ es)

/-- The dict RuleFormValidator.cleaned_data returns. -/
structure CleanedData where
  label : String
  action_match : String
  actions : List (List (String × String))
  conditions : List (List (String × String))
deriving DecidableEq, Repr

/-- Models `RuleFormValidator.cleaned_data` as a whole: parse the submitted
items into raw_data, walk conditions then actions in sorted index order, then
apply the label check (`if not data['label'] or len(data['label']) > 64`).
The result pairs the returned data dict with `self.errors`; an uncaught
KeyError aborts the whole computation. -/
def cleanedData (formData : List (String × String)) :
    Except String (CleanedData × List (String × String)) :=
  let rd := buildRawData formData
  match processNodes RULES_events.conditions "condition" (sortByNum rd.condition) with
  | Except.error e => Except.error e
  | Except.ok (conds, cerrs) =>
    match processNodes RULES_events.actions "action" (sortByNum rd.action) with
    | Except.error e => Except.error e
    | Except.ok (acts, aerrs) =>
      let lbl := pyStrip ((List.lookup "label" formData).getD "")
      Except.ok
        (⟨lbl, (List.lookup "action_match" formData).getD "all", acts, conds⟩,
         cerrs ++ aerrs ++
           (if lbl = "" ∨ 64 < lbl.length then
             [("label", "Value must be less than 64 characters.")]
            else []))

/-- True when the registry subscript `rules_by_id[kind][node['id']]` would
raise: the instance has no 'id' field, or its id is not a registered node id. -/
def nodeLookupFails (reg : List NodeType) (node : List (String × String)) : Bool :=
  match List.lookup "id" node with
  | none => true
  | some i => (List.find? (fun n => NodeType.id n == i) reg).isNone

/-- Membership through one insertion step of the sort. -/
theorem mem_insertSorted {a x : String × List (String × String)}
    {l : List (String × List (String × String))} :
    a ∈ insertSorted x l ↔ a = x ∨ a ∈ l := by
  induction l with
  | nil => simp [insertSorted]
  | cons y t ih =>
    rw [insertSorted]
    split
    · simp [List.mem_cons]
    · simp only [List.mem_cons, ih]
      tauto

/-- Sorting the raw_data bucket preserves its members. -/
theorem mem_sortByNum {a : String × List (String × String)}
    {l : List (String × List (String × String))} (h : a ∈ l) : a ∈ sortByNum l := by
  unfold sortByNum
  induction l with
  | nil => cases h
  | cons y t ih =>
    simp only [List.foldr]
    rw [mem_insertSorted]
    rcases List.mem_cons.mp h with h1 | h2
    · left; exact h1
    · right; exact ih h2

/-- If some instance in the list makes the registry subscript raise, the whole
loop of cleaned_data over that list ends in an error. -/
theorem processNodes_error_of_fails (reg : List NodeType) (kl : String)
    (nodes : List (String × List (String × String)))
    (h : ∃ p ∈ nodes, nodeLookupFails reg p.2 = true) :
    ∃ e, processNodes reg kl nodes = Except.error e := by
  induction nodes with
  | nil =>
    obtain ⟨p, hp, _⟩ := h
    cases hp
  | cons hd tl ih =>
    obtain ⟨p, hp, hfail⟩ := h
    obtain ⟨num, node⟩ := hd
    rw [processNodes]
    split
    · exact ⟨"KeyError", rfl⟩
    · rename_i i hid
      split
      · exact ⟨"KeyError", rfl⟩
      · rename_i cls hfind
        rcases List.mem_cons.mp hp with heq | hmem
        · subst heq
          simp [nodeLookupFails, hid, hfind] at hfail
        · obtain ⟨e, he⟩ := ih ⟨p, hmem, hfail⟩
          rw [he]
          exact ⟨e, rfl⟩

/-- Lookup skips an association-list segment that does not bind the key. -/
theorem lookup_append_none {k : String} {l1 l2 : List (String × String)}
    (h : List.lookup k l1 = none) :
    List.lookup k (l1 ++ l2) = List.lookup k l2 := by
  induction l1 with
  | nil => simp
  | cons a t ih =>
    obtain ⟨k2, v2⟩ := a
    rw [List.lookup] at h
    rw [List.cons_append, List.lookup]
    cases hk : (k == k2) with
    | true => rw [hk] at h; cases h
    | false => rw [hk] at h; exact ih h

/-- The error key a node loop records is `kl ++ "[" ++ num ++ "]"`, never the
key "label", as soon as the kind name has at least four characters. -/
theorem label_ne_loop_key (kl num : String) (hkl : 4 ≤ kl.length) :
    ("label" : String) ≠ kl ++ "[" ++ num ++ "]" := by
  intro hEq
  have hlen := congrArg String.length hEq
  have h5 : ("label" : String).length = 5 := rfl
  have hb1 : ("[" : String).length = 1 := rfl
  have hb2 : ("]" : String).length = 1 := rfl
  rw [h5, String.length_append, String.length_append, String.length_append, hb1, hb2] at hlen
  omega

/-- The errors recorded by a node loop of cleaned_data never use the key
"label" (their keys name a condition or action slot). -/
theorem processNodes_label_none (reg : List NodeType) (kl : String) (hkl : 4 ≤ kl.length)
    (nodes : List (String × List (String × String)))
    (ns : List (List (String × String))) (es : List (String × String))
    (h : processNodes reg kl nodes = Except.ok (ns, es)) :
    List.lookup "label" es = none := by
  induction nodes generalizing ns es with
  | nil =>
    rw [processNodes] at h
    cases h
    rfl
  | cons hd tl ih =>
    obtain ⟨num, node⟩ := hd
    rw [processNodes] at h
    split at h
    · cases h
    · split at h
      · cases h
      · rename_i i hid cls hfind
        split at h
        · cases h
        · rename_i ns2 es2 hrec
          simp only [Except.ok.injEq, Prod.mk.injEq] at h
          obtain ⟨h1, h2⟩ := h
          subst h1
          subst h2
          have htail := ih ns2 es2 hrec
          split
          · rw [List.singleton_append, List.lookup,
              beq_eq_false_iff_ne.mpr (label_ne_loop_key kl num hkl)]
            exact htail
          · simpa using htail

/-- The format machinery fails with KeyError on any template one of whose
placeholder names is not bound by the data map. -/
theorem fmt_missing (data : List (String × String)) (t : List Char) :
    (∀ name, name ∈ phGo t → List.lookup name data = none →
      fmtGo data t = Except.error "KeyError") ∧
    (∀ acc name, name ∈ phName acc t → List.lookup name data = none →
      fmtName data acc t = Except.error "KeyError") := by
  induction t with
  | nil =>
    constructor
    · intro name hmem
      simp [phGo] at hmem
    · intro acc name hmem
      simp [phName] at hmem
  | cons c rest ih =>
    obtain ⟨ihGo, ihName⟩ := ih
    constructor
    · intro name hmem hlk
      by_cases hc : c = Char.ofNat 123
      · rw [phGo, if_pos hc] at hmem
        rw [fmtGo, if_pos hc]
        exact ihName [] name hmem hlk
      · rw [phGo, if_neg hc] at hmem
        rw [fmtGo, if_neg hc, ihGo name hmem hlk]
        rfl
    · intro acc name hmem hlk
      by_cases hc : c = Char.ofNat 125
      · rw [phName, if_pos hc] at hmem
        rw [fmtName, if_pos hc]
        rcases List.mem_cons.mp hmem with heq | hmem2
        · subst heq
          rw [hlk]
        · cases hacc : List.lookup acc.asString data with
          | none => rfl
          | some v =>
            rw [ihGo name hmem2 hlk]
            rfl
      · rw [phName, if_neg hc] at hmem
        rw [fmtName, if_neg hc]
        exact ihName (acc ++ [c]) name hmem hlk

/-- C1 counterexample: the claim says an instance with an unregistered node id
is skipped and `cleaned_data` completes; on this concrete submission (one
unknown condition id at slot 0, one perfectly valid condition at slot 1)
cleaned_data instead aborts with a KeyError, so the other instance is never
validated. -/
theorem claim1_counterexample :
    cleanedData [("label", "My Rule"),
                 ("condition[0][id]", "sentry.rules.UnknownCondition"),
                 ("condition[1][id]", "sentry.rules.FirstSeenEventCondition")]
      = Except.error "KeyError" := rfl

/-- C1 (amended): for every submitted form whose parsed condition or action
instances contain one whose id field is missing or names no registered node
type, RuleFormValidator.cleaned_data raises an uncaught KeyError and does not
complete; the instance is not skipped. -/
theorem claim1_unknown_node_id_aborts (formData : List (String × String))
    (h : (∃ p ∈ (buildRawData formData).condition,
            nodeLookupFails RULES_events.conditions p.2 = true) ∨
         (∃ p ∈ (buildRawData formData).action,
            nodeLookupFails RULES_events.actions p.2 = true)) :
    ∃ e, cleanedData formData = Except.error e := by
  rcases h with h | h
  · obtain ⟨p, hp, hf⟩ := h
    obtain ⟨e, he⟩ := processNodes_error_of_fails RULES_events.conditions "condition"
      (sortByNum (buildRawData formData).condition) ⟨p, mem_sortByNum hp, hf⟩
    exact ⟨e, by simp only [cleanedData, he]⟩
  · cases hc : processNodes RULES_events.conditions "condition"
        (sortByNum (buildRawData formData).condition) with
    | error e => exact ⟨e, by simp only [cleanedData, hc]⟩
    | ok prc =>
      obtain ⟨conds, cerrs⟩ := prc
      obtain ⟨p, hp, hf⟩ := h
      obtain ⟨e, he⟩ := processNodes_error_of_fails RULES_events.actions "action"
        (sortByNum (buildRawData formData).action) ⟨p, mem_sortByNum hp, hf⟩
      exact ⟨e, by simp only [cleanedData, hc, he]⟩

/-- C1 witness: a concrete submission whose only condition instance carries an
unregistered id satisfies the hypothesis, and cleaned_data errors on it. -/
theorem claim1_witness :
    ((∃ p ∈ (buildRawData [("condition[0][id]", "nope")]).condition,
        nodeLookupFails RULES_events.conditions p.2 = true) ∨
     (∃ p ∈ (buildRawData [("condition[0][id]", "nope")]).action,
        nodeLookupFails RULES_events.actions p.2 = true)) ∧
    (∃ e, cleanedData [("condition[0][id]", "nope")] = Except.error e) :=
  ⟨Or.inl (by decide),
   claim1_unknown_node_id_aborts [("condition[0][id]", "nope")] (Or.inl (by decide))⟩

/-- C2: NotifyEventAction.after invokes notify(event) exactly when its
should_notify predicate returns true on the event, and has no effect at all
otherwise. -/
theorem claim2_notify_iff_should_notify (should_notify : Event → Bool) (e : Event) :
    ((NotifyEffect.notified e ∈ NotifyEventAction.after should_notify e) ↔
      should_notify e = true) ∧
    (should_notify e = false → NotifyEventAction.after should_notify e = []) := by
  by_cases hsn : should_notify e = true <;>
    simp [NotifyEventAction.after, NotifyEventAction.notify, hsn]

/-- C2 witness: with a predicate that rejects every event, after performs no
effect on a concrete event. -/
theorem claim2_witness :
    ((fun (_ : Event) => false) ⟨[]⟩ = false) ∧
    NotifyEventAction.after (fun _ => false) ⟨[]⟩ = [] :=
  ⟨rfl, (claim2_notify_iff_should_notify (fun _ => false) ⟨[]⟩).2 rfl⟩

/-- C3: when no tag entry has the configured key, TaggedEventCondition.passes
returns False for EQUAL, STARTS_WITH, ENDS_WITH and CONTAINS, and True for
NOT_EQUAL and NOT_CONTAINS. -/
theorem claim3_absent_key_vacuous (k v : String) (event : Event) (isr : Bool)
    (h : ∀ kv ∈ event.tags, kv.1 ≠ k) :
    TaggedEventCondition.passes (mkData k MatchType.EQUAL v) event isr
      = Except.ok (some false) ∧
    TaggedEventCondition.passes (mkData k MatchType.STARTS_WITH v) event isr
      = Except.ok (some false) ∧
    TaggedEventCondition.passes (mkData k MatchType.ENDS_WITH v) event isr
      = Except.ok (some false) ∧
    TaggedEventCondition.passes (mkData k MatchType.CONTAINS v) event isr
      = Except.ok (some false) ∧
    TaggedEventCondition.passes (mkData k MatchType.NOT_EQUAL v) event isr
      = Except.ok (some true) ∧
    TaggedEventCondition.passes (mkData k MatchType.NOT_CONTAINS v) event isr
      = Except.ok (some true) := by
  refine ⟨?_, ?_, ?_, ?_, ?_, ?_⟩ <;>
    simp [TaggedEventCondition.passes, mkData, get_option, Event.get_tags, List.lookup,
      MatchType.EQUAL, MatchType.NOT_EQUAL, MatchType.STARTS_WITH, MatchType.ENDS_WITH,
      MatchType.CONTAINS, MatchType.NOT_CONTAINS] <;>
    intro x hx <;>
    exact absurd rfl (h (k, x) hx)

/-- C3 witness: a concrete event carrying only an unrelated tag key. -/
theorem claim3_witness :
    (∀ kv ∈ (Event.mk [("other", "y")]).tags, kv.1 ≠ "logger") ∧
    (TaggedEventCondition.passes (mkData "logger" MatchType.EQUAL "x") ⟨[("other", "y")]⟩ false
       = Except.ok (some false) ∧
     TaggedEventCondition.passes (mkData "logger" MatchType.STARTS_WITH "x") ⟨[("other", "y")]⟩ false
       = Except.ok (some false) ∧
     TaggedEventCondition.passes (mkData "logger" MatchType.ENDS_WITH "x") ⟨[("other", "y")]⟩ false
       = Except.ok (some false) ∧
     TaggedEventCondition.passes (mkData "logger" MatchType.CONTAINS "x") ⟨[("other", "y")]⟩ false
       = Except.ok (some false) ∧
     TaggedEventCondition.passes (mkData "logger" MatchType.NOT_EQUAL "x") ⟨[("other", "y")]⟩ false
       = Except.ok (some true) ∧
     TaggedEventCondition.passes (mkData "logger" MatchType.NOT_CONTAINS "x") ⟨[("other", "y")]⟩ false
       = Except.ok (some true)) :=
  ⟨by decide,
   claim3_absent_key_vacuous "logger" "x" ⟨[("other", "y")]⟩ false (by decide)⟩

/-- C4: over identical key, value and tag list, NOT_EQUAL is the exact logical
negation of EQUAL, and NOT_CONTAINS of CONTAINS. -/
theorem claim4_negation_pairs (k v : String) (event : Event) (isr : Bool) :
    (TaggedEventCondition.passes (mkData k MatchType.NOT_EQUAL v) event isr
      = (TaggedEventCondition.passes (mkData k MatchType.EQUAL v) event isr).map
          (Option.map not)) ∧
    (TaggedEventCondition.passes (mkData k MatchType.NOT_CONTAINS v) event isr
      = (TaggedEventCondition.passes (mkData k MatchType.CONTAINS v) event isr).map
          (Option.map not)) := by
  constructor <;>
    simp [TaggedEventCondition.passes, mkData, get_option, Event.get_tags, List.lookup,
      MatchType.EQUAL, MatchType.NOT_EQUAL, MatchType.STARTS_WITH, MatchType.ENDS_WITH,
      MatchType.CONTAINS, MatchType.NOT_CONTAINS, Except.map]

/-- C5: FirstSeenEventCondition.passes returns exactly is_new, whatever the
bound data, the event and the other lifecycle facts are. -/
theorem claim5_first_seen_returns_is_new (data : List (String × String)) (event : Event)
    (is_new : Bool) (is_regression : Bool) :
    FirstSeenEventCondition.passes data event is_new is_regression = is_new := rfl

/-- C6: validate_form on a node type whose form_cls is unset returns True for
every bound data map. -/
theorem claim6_no_form_always_valid (n : NodeType) (data : List (String × String))
    (h : n.form_cls = none) :
    RuleBase.validate_form n data = true := by
  simp [RuleBase.validate_form, h]

/-- C6 witness: FirstSeenEventCondition declares no form, so it validates on a
concrete data map. -/
theorem claim6_witness :
    NodeType.form_cls FirstSeenEventCondition = none ∧
    RuleBase.validate_form FirstSeenEventCondition [("key", "x")] = true :=
  ⟨rfl, claim6_no_form_always_valid FirstSeenEventCondition [("key", "x")] rfl⟩

/-- C7: when cleaned_data completes, its errors bind the key "label" exactly
when the submitted label, stripped of surrounding whitespace, is empty or
longer than 64 characters; the returned label is that stripped string. -/
theorem claim7_label_check (formData : List (String × String)) (d : CleanedData)
    (errs : List (String × String)) (h : cleanedData formData = Except.ok (d, errs)) :
    d.label = pyStrip ((List.lookup "label" formData).getD "") ∧
    ((List.lookup "label" errs).isSome ↔ (d.label = "" ∨ 64 < d.label.length)) := by
  simp only [cleanedData] at h
  split at h
  · cases h
  · rename_i prc conds cerrs hc
    split at h
    · cases h
    · rename_i pra acts aerrs ha
      simp only [Except.ok.injEq, Prod.mk.injEq] at h
      obtain ⟨hd2, herrs⟩ := h
      subst hd2
      subst herrs
      have hcl : List.lookup "label" cerrs = none :=
        processNodes_label_none RULES_events.conditions "condition" (by decide) _ _ _ hc
      have hal : List.lookup "label" aerrs = none :=
        processNodes_label_none RULES_events.actions "action" (by decide) _ _ _ ha
      have h12 : List.lookup "label" (cerrs ++ aerrs) = none := by
        rw [lookup_append_none hcl]; exact hal
      refine ⟨rfl, ?_⟩
      rw [lookup_append_none h12]
      split
      · next hcond => simpa [List.lookup] using hcond
      · next hcond => simpa [List.lookup] using hcond

/-- C7 witness: a concrete submission with the label "Alerts" completes with no
errors, and the biconditional holds there. -/
theorem claim7_witness :
    ("Alerts" : String) = pyStrip ((List.lookup "label" [("label", "Alerts")]).getD "") ∧
    ((List.lookup "label" ([] : List (String × String))).isSome ↔
      (("Alerts" : String) = "" ∨ 64 < ("Alerts" : String).length)) :=
  claim7_label_check [("label", "Alerts")] ⟨"Alerts", "all", [], []⟩ [] rfl

/-- C8: the metaclass-assigned ids of the four registered node classes are the
strings module.name, and they are pairwise distinct. -/
theorem claim8_node_ids_distinct :
    NodeType.id NotifyEventAction = "sentry.rules.NotifyEventAction" ∧
    NodeType.id FirstSeenEventCondition = "sentry.rules.FirstSeenEventCondition" ∧
    NodeType.id RegressionEventCondition = "sentry.rules.RegressionEventCondition" ∧
    NodeType.id TaggedEventCondition = "sentry.rules.TaggedEventCondition" ∧
    ((RULES_events.actions ++ RULES_events.conditions).map NodeType.id).Pairwise (· ≠ ·) := by
  refine ⟨rfl, rfl, rfl, rfl, ?_⟩
  decide

/-- C9: when the bound 'match' option is none of the six codes (including when
it is absent), TaggedEventCondition.passes returns None: no branch of the
dispatch applies and no exception is raised. -/
theorem claim9_unknown_match_returns_none (data : List (String × String)) (event : Event)
    (isr : Bool)
    (h1 : get_option data "match" ≠ some MatchType.EQUAL)
    (h2 : get_option data "match" ≠ some MatchType.NOT_EQUAL)
    (h3 : get_option data "match" ≠ some MatchType.STARTS_WITH)
    (h4 : get_option data "match" ≠ some MatchType.ENDS_WITH)
    (h5 : get_option data "match" ≠ some MatchType.CONTAINS)
    (h6 : get_option data "match" ≠ some MatchType.NOT_CONTAINS) :
    TaggedEventCondition.passes data event isr = Except.ok none := by
  simp [TaggedEventCondition.passes, h1, h2, h3, h4, h5, h6]

/-- C9 witness: a concrete data map whose 'match' value is the unknown code
"xx". -/
theorem claim9_witness :
    (get_option [("match", "xx")] "match" ≠ some MatchType.EQUAL) ∧
    (get_option [("match", "xx")] "match" ≠ some MatchType.NOT_EQUAL) ∧
    (get_option [("match", "xx")] "match" ≠ some MatchType.STARTS_WITH) ∧
    (get_option [("match", "xx")] "match" ≠ some MatchType.ENDS_WITH) ∧
    (get_option [("match", "xx")] "match" ≠ some MatchType.CONTAINS) ∧
    (get_option [("match", "xx")] "match" ≠ some MatchType.NOT_CONTAINS) ∧
    TaggedEventCondition.passes [("match", "xx")] ⟨[]⟩ false = Except.ok none :=
  ⟨by decide, by decide, by decide, by decide, by decide, by decide,
   claim9_unknown_match_returns_none [("match", "xx")] ⟨[]⟩ false
     (by decide) (by decide) (by decide) (by decide) (by decide) (by decide)⟩

/-- C10: render_label fails with a KeyError whenever the label template has a
placeholder whose name is not bound by the instance data. -/
theorem claim10_render_label_keyerror (n : NodeType) (data : List (String × String))
    (name : String) (hmem : name ∈ phGo n.label.data)
    (hlk : List.lookup name data = none) :
    RuleBase.render_label n data = Except.error "KeyError" := by
  rw [RuleBase.render_label, (fmt_missing data n.label.data).1 name hmem hlk]
  rfl

/-- C10 witness: TaggedEventCondition with the empty data map cannot render its
label (the key placeholder is unbound). -/
theorem claim10_witness :
    ("key" ∈ phGo (NodeType.label TaggedEventCondition).data) ∧
    (List.lookup "key" ([] : List (String × String)) = none) ∧
    RuleBase.render_label TaggedEventCondition [] = Except.error "KeyError" :=
  ⟨by decide, rfl,
   claim10_render_label_keyerror TaggedEventCondition [] "key" (by decide) rfl⟩

end Sentry
